import Mathlib

/-
Verification of the Avalia repository (aval-repos-novos.py, aval-usuario.py):
a shallow embedding, over ℚ and lists of characters, of the composite scoring
engine and the commit-frequency heuristic, together with proofs of the spec
claims about them.

Modelling conventions:
* Python floats are modelled as exact rationals (ℚ); `round(x, n)` is modelled
  as rounding to the nearest multiple of 10^(-n) (Python ties-to-even differs
  only at exact half-way points, which no claim exercises).
* Python strings are sequences of code points, modelled as `List Char`.
* Python integer floor division `//` coincides with Lean `Int` division `/`
  (Euclidean division) for the positive divisors used here (86400, 7).
* The OpenAI call is an external collaborator: its response is modelled as an
  `Option (List Char)` parameter (`none` = call failed / disabled path), and
  the `enabled` flag of the analyzer object is a `Bool` parameter.
-/

namespace Avalia

/-! ## Python numeric primitives

Python floats are modelled as exact rationals. Mathlib marks the field
operations of ℚ irreducible, so the embedding computes with `Rat.divInt`,
`mkRat` and `Rat.floor` (which do reduce) and bridges them to the ordinary
`+`, `*`, `/`, `round` by the lemmas below. -/

/-- Computable model of rational multiplication. -/
def qMul (a b : ℚ) : ℚ := Rat.divInt (a.num * b.num) ((a.den : ℤ) * (b.den : ℤ))

/-- Computable model of rational addition. -/
def qAdd (a b : ℚ) : ℚ :=
  Rat.divInt (a.num * (b.den : ℤ) + b.num * (a.den : ℤ)) ((a.den : ℤ) * (b.den : ℤ))

/-- Computable model of rational (true) division; division by zero gives 0,
matching ℚ. -/
def qDiv (a b : ℚ) : ℚ := Rat.divInt (a.num * (b.den : ℤ)) ((a.den : ℤ) * b.num)

/-- Computable round-to-nearest (ties upward), the model of Python `round`
restricted to the non-tie inputs exercised here. -/
def qRound (q : ℚ) : ℤ := (qAdd q (mkRat 1 2)).floor

/-- Python `min(a, b)` on numbers. -/
def pyMinQ (a b : ℚ) : ℚ := if a ≤ b then a else b

/-- Python `max(a, b)` on numbers. -/
def pyMaxQ (a b : ℚ) : ℚ := if b ≤ a then a else b

/-- Python `max(a, b)` on integers. -/
def pyMaxI (a b : ℤ) : ℤ := if b ≤ a then a else b

/-! ## Python string primitives -/

/-- Boolean prefix test on character lists. -/
def listPre : List Char → List Char → Bool
  | [], _ => true
  | _ :: _, [] => false
  | a :: as, b :: bs => a = b && listPre as bs

/-- Python `needle in hay` (substring containment). -/
def containsSub (needle : List Char) : List Char → Bool
  | [] => listPre needle []
  | c :: cs => listPre needle (c :: cs) || containsSub needle cs

/-- Python `text.split(sep)` for a one-character separator. -/
def pySplit (sep : Char) : List Char → List (List Char)
  | [] => [[]]
  | c :: cs =>
    if c = sep then [] :: pySplit sep cs
    else
      match pySplit sep cs with
      | [] => [[c]]
      | l :: ls => (c :: l) :: ls

/-- Python `text.lower()` (ASCII case folding suffices for the keyword set). -/
def pyLower (l : List Char) : List Char := l.map Char.toLower

/-- Drop characters satisfying `p` from the end of a list. -/
def dropEndWhile (p : Char → Bool) (l : List Char) : List Char :=
  (l.reverse.dropWhile p).reverse

/-- Python `text.strip()` (whitespace on both ends). -/
def pyStripWs (l : List Char) : List Char :=
  dropEndWhile Char.isWhitespace (l.dropWhile Char.isWhitespace)

/-- Python `text.strip(chars)`: drop characters of `cset` from both ends. -/
def pyStripChars (cset : List Char) (l : List Char) : List Char :=
  dropEndWhile (fun c => cset.contains c) (l.dropWhile (fun c => cset.contains c))

/-! ## Text-score extraction (aval-repos-novos.py lines 94-99 and 133-141,
     aval-usuario.py lines 106-116) -/

/-- Character class of the leading-marker pattern in
`re.sub(r'^[\d\.\-\*\s]+', '', line)`. -/
def isMarker (c : Char) : Bool :=
  c.isDigit || c = '.' || c = '-' || c = '*' || c.isWhitespace

/-- `re.sub(r'^[\d\.\-\*\s]+', '', line).strip()` from `_extract_recommendations`. -/
def cleanMarker (l : List Char) : List Char :=
  pyStripWs (l.dropWhile isMarker)

/-- The greedy match of `\d+\.?\d*` starting at a digit position. -/
def matchNumAt (cs : List Char) : List Char :=
  let ds := cs.takeWhile Char.isDigit
  match cs.dropWhile Char.isDigit with
  | '.' :: rest => ds ++ '.' :: rest.takeWhile Char.isDigit
  | _ => ds

/-- `re.search(r'(\d+\.?\d*)', text)`: the first (leftmost, greedy) match of a
decimal-or-integer numeral, if any. -/
def findNumber : List Char → Option (List Char)
  | [] => none
  | c :: cs => if c.isDigit then some (matchNumAt (c :: cs)) else findNumber cs

/-- Numeric value of a digit string. -/
def digitsToNat (ds : List Char) : ℕ :=
  ds.foldl (fun n c => 10 * n + (c.toNat - 48)) 0

/-- Python `float(s)` on a matched numeral `digits[.digits]`: the exact value
intPart + frac / 10 ^ length(frac), built as one fraction so it computes. -/
def parseDecimal (cs : List Char) : ℚ :=
  let intPart := cs.takeWhile Char.isDigit
  match cs.dropWhile Char.isDigit with
  | '.' :: frac =>
      mkRat (Int.ofNat (digitsToNat intPart * 10 ^ frac.length + digitsToNat frac))
        (10 ^ frac.length)
  | _ => mkRat (Int.ofNat (digitsToNat intPart)) 1

/-- Score extraction shared by all analyzers: first numeral in the AI response,
clamped by `max(0.0, min(1.0, score))`, defaulting to 0.5 when absent. -/
def extractScore (text : List Char) : ℚ :=
  match findNumber text with
  | some cs => pyMaxQ 0 (pyMinQ 1 (parseDecimal cs))
  | none => mkRat 1 2

/-- Keyword set of the recommendation detectors (Portuguese stems, matched
case-insensitively): `['recomend', 'sugest', 'melhor', 'deve']`. -/
def recKeywords : List (List Char) :=
  ["recomend".toList, "sugest".toList, "melhor".toList, "deve".toList]

/-- `AgileRepositoryAnalyzer._extract_recommendations` (aval-repos-novos.py
lines 133-141): keep keyword lines, strip leading list markers, require a
cleaned length strictly greater than 10, and truncate to the first 2. -/
def extract_recommendations (text : List Char) : List (List Char) :=
  ((pySplit '\n' text).filterMap fun line =>
    if recKeywords.any fun k => containsSub k (pyLower line) then
      let c := cleanMarker line
      if c.isEmpty = false ∧ 10 < c.length then some c else none
    else none).take 2

/-! ## Qualitative analysis results -/

/-- Result record of every qualitative analyzer: a score in [0,1], the raw
analysis text and a list of recommendation strings. -/
structure QualResult where
  score : ℚ
  analysis : List Char
  recommendations : List (List Char)
deriving DecidableEq

/-- `AgileRepositoryAnalyzer.analyze_commit_quality` (aval-repos-novos.py
lines 74-101). The prompt assembly feeds the external OpenAI call, which is
modelled by the opaque `aiResult` parameter (`none` = the call returned
nothing / failed); `enabled` is the analyzer state. -/
def analyze_commit_quality (commitMessages : List (List Char)) (enabled : Bool)
    (aiResult : Option (List Char)) : QualResult :=
  if commitMessages.isEmpty || !enabled then
    ⟨mkRat 1 2, "Análise não disponível".toList, []⟩
  else
    match aiResult with
    | some result => ⟨extractScore result, result, extract_recommendations result⟩
    | none => ⟨mkRat 1 2, "Análise não disponível".toList, []⟩

/-! ## Score normalizer (aval-repos-novos.py lines 156-158, 181-182, 244-248) -/

/-- The normalization pattern `min(1.0, raw / ceiling)` shared by all raw
signal normalizations of aval-repos-novos.py. -/
def normalize (raw ceiling : ℚ) : ℚ := pyMinQ 1 (qDiv raw ceiling)

/-- `min(1.0, velocity / 5.0)` (line 158). -/
def velocity_score (velocity : ℚ) : ℚ := normalize velocity 5

/-- `min(1.0, (total_issues + total_prs) / 20.0)` (line 181). -/
def activity_score (issues prs : ℚ) : ℚ := normalize (qAdd issues prs) 20

/-- `min(1.0, total_contributors / 5.0)` (line 182). -/
def diversity_score (contributors : ℚ) : ℚ := normalize contributors 5

/-- `min(1.0, stars / 10.0)` (line 244). -/
def star_score (stars : ℚ) : ℚ := normalize stars 10

/-- `min(1.0, forks / 5.0)` (line 245). -/
def fork_score (forks : ℚ) : ℚ := normalize forks 5

/-- `min(1.0, watchers / 10.0)` (line 246). -/
def watch_score (watchers : ℚ) : ℚ := normalize watchers 10

/-- `(activity_score + diversity_score) / 2.0` (line 183). -/
def collaboration_score (issues prs contributors : ℚ) : ℚ :=
  qDiv (qAdd (activity_score issues prs) (diversity_score contributors)) 2

/-- `(star_score + fork_score + watch_score) / 3.0` (line 248). -/
def engagement_score (stars forks watchers : ℚ) : ℚ :=
  qDiv (qAdd (star_score stars) (qAdd (fork_score forks) (watch_score watchers))) 3

/-! ## Composite scorer (aval-repos-novos.py lines 30-37 and 298-319) -/

/-- The fixed weight table `AGILE_METRICS_WEIGHTS` (lines 30-37). -/
def AGILE_METRICS_WEIGHTS : List (String × ℚ) :=
  [("development_velocity", mkRat 25 100),
   ("collaboration_index", mkRat 20 100),
   ("code_quality", mkRat 20 100),
   ("documentation_maturity", mkRat 15 100),
   ("project_structure", mkRat 10 100),
   ("community_engagement", mkRat 10 100)]

/-- Dictionary access `AGILE_METRICS_WEIGHTS[key]`. -/
def weightOf (k : String) : ℚ := (AGILE_METRICS_WEIGHTS.lookup k).getD 0

/-- The six signal scores entering the composite (the `score` field of
velocity, collaboration, AI commit, AI structure, structure and engagement
metrics at lines 298-304). -/
structure Signals where
  development_velocity : ℚ
  collaboration_index : ℚ
  code_quality : ℚ
  documentation_maturity : ℚ
  project_structure : ℚ
  community_engagement : ℚ
deriving DecidableEq

/-- The weighted sum at lines 298-305 (before any rounding). -/
def finalScoreRaw (s : Signals) : ℚ :=
  qAdd (qMul s.development_velocity (weightOf "development_velocity"))
    (qAdd (qMul s.collaboration_index (weightOf "collaboration_index"))
      (qAdd (qMul s.code_quality (weightOf "code_quality"))
        (qAdd (qMul s.documentation_maturity (weightOf "documentation_maturity"))
          (qAdd (qMul s.project_structure (weightOf "project_structure"))
            (qMul s.community_engagement (weightOf "community_engagement"))))))

/-- Python `round(x, 3)` (model: nearest multiple of 1/1000). -/
def round3 (x : ℚ) : ℚ := mkRat (qRound (qMul x (mkRat 1000 1))) 1000

/-- Python `round(x, 2)` (model: nearest multiple of 1/100). -/
def round2 (x : ℚ) : ℚ := mkRat (qRound (qMul x (mkRat 100 1))) 100

/-- The tier ladder at lines 307-314, applied to the unrounded final score. -/
def maturityLevel (final_score : ℚ) : String :=
  if final_score ≥ mkRat 8 10 then "Excelente"
  else if final_score ≥ mkRat 6 10 then "Maduro"
  else if final_score ≥ mkRat 4 10 then "Em Desenvolvimento"
  else "Iniciante"

/-- The `final_score` / `maturity_level` pair of the result dictionary of
`analyze_repository_comprehensive` (lines 316-320). -/
structure MaturityAssessment where
  final_score : ℚ
  maturity_level : String
deriving DecidableEq

/-- Scoring tail of `analyze_repository_comprehensive` (lines 298-319): the
returned dictionary carries `round(final_score, 3)` while the tier ladder at
lines 307-314 reads the unrounded `final_score`. -/
def analyze_repository_comprehensive (s : Signals) : MaturityAssessment :=
  { final_score := round3 (finalScoreRaw s),
    maturity_level := maturityLevel (finalScoreRaw s) }

/-- All six signals lie in [0, 1]. -/
def SignalsInRange (s : Signals) : Prop :=
  0 ≤ s.development_velocity ∧ s.development_velocity ≤ 1 ∧
  0 ≤ s.collaboration_index ∧ s.collaboration_index ≤ 1 ∧
  0 ≤ s.code_quality ∧ s.code_quality ≤ 1 ∧
  0 ≤ s.documentation_maturity ∧ s.documentation_maturity ≤ 1 ∧
  0 ≤ s.project_structure ∧ s.project_structure ≤ 1 ∧
  0 ≤ s.community_engagement ∧ s.community_engagement ≤ 1

instance (s : Signals) : Decidable (SignalsInRange s) := by
  unfold SignalsInRange
  infer_instance

/-! ## Per-user detailed analyzers (aval-usuario.py lines 70-244)

The GitHub collection layer is an external collaborator; the analyzers receive
the collected records. Fields that only the (out-of-scope) report prose reads
are kept where the modelled code touches them. -/

/-- A collected commit record (`commit_data` built at aval-usuario.py
lines 273-280). -/
structure Commit where
  sha : List Char
  message : List Char
  date : ℤ
  files_count : ℕ
  additions : ℕ
  deletions : ℕ
deriving DecidableEq

/-- A collected issue record (title/body are what the analyzer reads). -/
structure Issue where
  number : ℕ
  title : List Char
  body : List Char
deriving DecidableEq

/-- A collected review-comment record. -/
structure Review where
  body : List Char
deriving DecidableEq

/-- Recommendation harvesting of the per-user analyzers (aval-usuario.py
lines 112-116, likewise 170-174 and 228-232): keyword lines, cleaned by
`line.strip('- ').strip()`, with no minimum length and no early cap. -/
def extractRecsUser (result : List Char) : List (List Char) :=
  (pySplit '\n' result).filterMap fun line =>
    if recKeywords.any fun k => containsSub k (pyLower line) then
      some (pyStripWs (pyStripChars ['-', ' '] line))
    else none

/-- The canned fallback recommendations of `analyze_commits_detailed`. -/
def commitDefaultRecs : List (List Char) :=
  ["Melhore a clareza das mensagens de commit".toList,
   "Use formato convencional (feat:, fix:, docs:)".toList,
   "Descreva o \x27porquê\x27 além do \x27o quê\x27".toList]

/-- The canned fallback recommendations of `analyze_issues_detailed`. -/
def issueDefaultRecs : List (List Char) :=
  ["Adicione critérios de aceitação claros".toList,
   "Use formato \x27Como... Eu quero... Para que...\x27".toList,
   "Inclua mais detalhes técnicos".toList]

/-- The canned fallback recommendations of `analyze_reviews_detailed`. -/
def reviewDefaultRecs : List (List Char) :=
  ["Forneça feedback mais específico".toList,
   "Sugira melhorias construtivas".toList,
   "Foque em qualidade, segurança e performance".toList]

/-- `DetailedAgileAnalyzer.analyze_commits_detailed` (aval-usuario.py
lines 70-128); `aiResult` models the external OpenAI response. -/
def analyze_commits_detailed (commitsData : List Commit) (enabled : Bool)
    (aiResult : Option (List Char)) : QualResult :=
  if commitsData.isEmpty then
    ⟨mkRat 1 2, "Nenhum commit encontrado".toList, []⟩
  else
    let messages := commitsData.filterMap fun c =>
      if c.message.isEmpty then none else some c.message
    if !enabled || messages.isEmpty then
      ⟨mkRat 1 2,
       ("Análise básica: " ++ toString messages.length ++ " commits encontrados").toList,
       ["Configure OpenAI para análise detalhada".toList]⟩
    else
      match aiResult with
      | some result =>
          let recommendations := extractRecsUser result
          ⟨extractScore result, result,
           if !recommendations.isEmpty then recommendations.take 3 else commitDefaultRecs⟩
      | none => ⟨mkRat 1 2, "Falha na análise de IA".toList, []⟩

/-- `DetailedAgileAnalyzer.analyze_issues_detailed` (aval-usuario.py
lines 130-186). -/
def analyze_issues_detailed (issuesData : List Issue) (enabled : Bool)
    (aiResult : Option (List Char)) : QualResult :=
  if issuesData.isEmpty then
    ⟨mkRat 1 2, "Nenhuma issue encontrada".toList, []⟩
  else if !enabled then
    ⟨mkRat 1 2,
     ("Análise básica: " ++ toString issuesData.length ++ " issues encontradas").toList,
     ["Configure OpenAI para análise detalhada".toList]⟩
  else
    match aiResult with
    | some result =>
        let recommendations := extractRecsUser result
        ⟨extractScore result, result,
         if !recommendations.isEmpty then recommendations.take 3 else issueDefaultRecs⟩
    | none => ⟨mkRat 1 2, "Falha na análise de IA".toList, []⟩

/-- `DetailedAgileAnalyzer.analyze_reviews_detailed` (aval-usuario.py
lines 188-244). -/
def analyze_reviews_detailed (reviewsData : List Review) (enabled : Bool)
    (aiResult : Option (List Char)) : QualResult :=
  if reviewsData.isEmpty then
    ⟨mkRat 1 2, "Nenhuma revisão encontrada".toList, []⟩
  else if !enabled then
    ⟨mkRat 1 2,
     ("Análise básica: " ++ toString reviewsData.length ++ " revisões encontradas").toList,
     ["Configure OpenAI para análise detalhada".toList]⟩
  else
    match aiResult with
    | some result =>
        let recommendations := extractRecsUser result
        ⟨extractScore result, result,
         if !recommendations.isEmpty then recommendations.take 3 else reviewDefaultRecs⟩
    | none => ⟨mkRat 1 2, "Falha na análise de IA".toList, []⟩

/-! ## Commit-frequency heuristic (aval-usuario.py lines 398-448)

The function reads the wall clock (`datetime.now`); the embedding makes the
clock an explicit parameter. Dates are POSIX timestamps in seconds, so
`timedelta.days` is floor division by 86400, matching `Int` division. -/

/-- `(now_dt - since_dt).days`. -/
def daysBetween (sinceSec nowSec : ℤ) : ℤ := (nowSec - sinceSec) / 86400

/-- `weeks_in_period = max(1, (now_dt - since_dt).days // 7)` (line 412). -/
def weeksInPeriod (sinceSec nowSec : ℤ) : ℤ := pyMaxI 1 (daysBetween sinceSec nowSec / 7)

/-- Severity ladder of the non-empty branch (lines 425-440), levels only. -/
def alertLevelOf (cpw : ℚ) (wi wt : ℤ) : String :=
  if cpw < 1 then
    if (wi : ℚ) ≥ qMul (wt : ℚ) (mkRat 7 10) then "high"
    else if (wi : ℚ) ≥ qMul (wt : ℚ) (mkRat 4 10) then "medium"
    else if cpw < mkRat 1 2 then "low"
    else "normal"
  else "good"

/-- Python `f"{q:.1f}"` for the non-negative rationals printed here. -/
def fmt1 (q : ℚ) : String :=
  toString (qRound (qMul q (mkRat 10 1)) / 10) ++ "." ++
    toString (qRound (qMul q (mkRat 10 1)) % 10)

/-- Message of the non-empty branch (lines 425-440), same conditions as
` alertLevelOf`. -/
def alertMsgOf (cpw : ℚ) (wi wt : ℤ) : String :=
  if cpw < 1 then
    if (wi : ℚ) ≥ qMul (wt : ℚ) (mkRat 7 10) then
      "ALERTA: ~" ++ toString wi ++ " semanas inativas de " ++ toString wt ++ " semanas"
    else if (wi : ℚ) ≥ qMul (wt : ℚ) (mkRat 4 10) then
      "Atenção: ~" ++ toString wi ++ " semanas com baixa atividade de " ++
        toString wt ++ " semanas"
    else if cpw < mkRat 1 2 then
      "Frequência baixa: " ++ fmt1 cpw ++ " commits/semana"
    else "Frequência adequada: " ++ fmt1 cpw ++ " commits/semana"
  else "Boa frequência: " ++ fmt1 cpw ++ " commits/semana"

/-- The dictionary returned by `analyze_commit_frequency`; `weeks_total` is
`none` exactly when the key is absent (the empty-list early return at
lines 400-406 omits it). -/
structure FreqResult where
  commits_per_week : ℚ
  weeks_inactive : ℤ
  weeks_total : Option ℤ
  frequency_alert : String
  alert_level : String
deriving DecidableEq

/-- `analyze_commit_frequency` (aval-usuario.py lines 398-448). The middle
branch reproduces the source's `if commits_total == 0` block verbatim; it is
unreachable because the empty-list guard above it already returned. -/
def analyze_commit_frequency (commitsData : List Commit) (sinceSec nowSec : ℤ) : FreqResult :=
  if commitsData = [] then
    { commits_per_week := 0,
      weeks_inactive := 0,
      weeks_total := none,
      frequency_alert := "Nenhum commit encontrado no período",
      alert_level := "critical" }
  else if (commitsData.length : ℤ) = 0 then
    { commits_per_week :=
        round2 (Rat.divInt (commitsData.length : ℤ) (weeksInPeriod sinceSec nowSec)),
      weeks_inactive := weeksInPeriod sinceSec nowSec,
      weeks_total := some (weeksInPeriod sinceSec nowSec),
      frequency_alert := "CRÍTICO: " ++ toString (weeksInPeriod sinceSec nowSec) ++
        " semanas sem nenhum commit",
      alert_level := "critical" }
  else
    { commits_per_week :=
        round2 (Rat.divInt (commitsData.length : ℤ) (weeksInPeriod sinceSec nowSec)),
      weeks_inactive := pyMaxI 0 (weeksInPeriod sinceSec nowSec - (commitsData.length : ℤ)),
      weeks_total := some (weeksInPeriod sinceSec nowSec),
      frequency_alert := alertMsgOf
        (Rat.divInt (commitsData.length : ℤ) (weeksInPeriod sinceSec nowSec))
        (pyMaxI 0 (weeksInPeriod sinceSec nowSec - (commitsData.length : ℤ)))
        (weeksInPeriod sinceSec nowSec),
      alert_level := alertLevelOf
        (Rat.divInt (commitsData.length : ℤ) (weeksInPeriod sinceSec nowSec))
        (pyMaxI 0 (weeksInPeriod sinceSec nowSec - (commitsData.length : ℤ)))
        (weeksInPeriod sinceSec nowSec) }

/-- Shallow model of `generate_detailed_report` (aval-usuario.py
lines 450-665): the markdown prose is abbreviated; what is kept is the first
failing dictionary read. The f-string at line 489 reads
`frequency_analysis['weeks_total']` unconditionally (and lines 601-603 read it
again for the activity rate), so an absent key raises `KeyError` and no report
string is produced. -/
def generate_detailed_report (commits : List Commit) (sinceSec nowSec : ℤ) :
    Except String String :=
  let fa := analyze_commit_frequency commits sinceSec nowSec
  match fa.weeks_total with
  | none => Except.error "KeyError: weeks_total"
  | some wt =>
      Except.ok (fa.frequency_alert ++ " | Semanas no Período: " ++ toString wt ++
        " | Semanas Estimadas Inativas: " ++ toString fa.weeks_inactive ++
        " | Taxa de Atividade: " ++
        fmt1 (qMul (qDiv ((wt - fa.weeks_inactive : ℤ) : ℚ) (wt : ℚ)) (mkRat 100 1)) ++ "%")

/-! ## Concrete inputs used by the claims -/

/-- The spec §8 test vector for the text-score extractor. -/
def c5Text : List Char :=
  "Score: 0.75. You should improve test coverage. Also you should add documentation.".toList

/-- All six signals fixed at 0.7996: the composite is exactly 0.7996, which
rounds to 0.800 but sits below the 0.8 threshold. -/
def c1Signals : Signals :=
  ⟨mkRat 7996 10000, mkRat 7996 10000, mkRat 7996 10000,
   mkRat 7996 10000, mkRat 7996 10000, mkRat 7996 10000⟩

/-- The neutral all-0.5 signal vector. -/
def halfSignals : Signals :=
  ⟨mkRat 1 2, mkRat 1 2, mkRat 1 2, mkRat 1 2, mkRat 1 2, mkRat 1 2⟩

/-- A concrete commit record. -/
def c0 : Commit := ⟨[], "m".toList, 0, 0, 0, 0⟩

/-! ## Bridging lemmas between the computable operations and ordinary
rational arithmetic, and sanity evaluations -/

theorem qMul_eq (a b : ℚ) : qMul a b = a * b := by
  rw [qMul, ← Rat.divInt_mul_divInt', Rat.num_divInt_den, Rat.num_divInt_den]

theorem qAdd_eq (a b : ℚ) : qAdd a b = a + b := by
  rw [qAdd, ← Rat.divInt_add_divInt _ _ (Int.natCast_ne_zero.mpr a.den_ne_zero)
      (Int.natCast_ne_zero.mpr b.den_ne_zero), Rat.num_divInt_den, Rat.num_divInt_den]

theorem qDiv_eq (a b : ℚ) : qDiv a b = a / b := by
  rw [qDiv, ← Rat.divInt_div_divInt, Rat.num_divInt_den, Rat.num_divInt_den]

theorem mkRat_eq_div_cast (n : ℤ) (d : ℕ) : mkRat n d = (n : ℚ) / (d : ℚ) := by
  rw [Rat.mkRat_eq_divInt, Rat.divInt_eq_div]
  norm_num

theorem ratFloor_eq_floor (q : ℚ) : q.floor = ⌊q⌋ := rfl

theorem qRound_eq (q : ℚ) : qRound q = round q := by
  rw [qRound, ratFloor_eq_floor, qAdd_eq, round_eq, mkRat_eq_div_cast]
  norm_num

theorem pyMinQ_eq_min (a b : ℚ) : pyMinQ a b = min a b := by
  rw [pyMinQ, min_def]

theorem pyMaxQ_eq_max (a b : ℚ) : pyMaxQ a b = max a b := by
  rw [pyMaxQ, max_def]
  rcases le_total a b with h | h
  · rcases eq_or_lt_of_le h with rfl | hlt
    · simp
    · rw [if_pos h, if_neg (not_le.mpr hlt)]
  · rw [if_pos h]
    rcases eq_or_lt_of_le h with he | hlt
    · rw [he, if_pos le_rfl]
    · rw [if_neg (not_le.mpr hlt)]

theorem pyMaxI_eq_max (a b : ℤ) : pyMaxI a b = max a b := by
  rw [pyMaxI, max_def]
  rcases le_total a b with h | h
  · rcases eq_or_lt_of_le h with rfl | hlt
    · simp
    · rw [if_pos h, if_neg (not_le.mpr hlt)]
  · rw [if_pos h]
    rcases eq_or_lt_of_le h with he | hlt
    · rw [he, if_pos le_rfl]
    · rw [if_neg (not_le.mpr hlt)]

-- sanity examples (kernel evaluation of the text pipeline)
example : containsSub "deve".toList "voce deve melhorar".toList = true := by decide
example : findNumber "Score: 0.75. rest".toList = some "0.75".toList := by decide
example : extractScore "Score: 0.75. rest".toList = mkRat 3 4 := by decide
example : pySplit '\n' "a\nbc".toList = ["a".toList, "bc".toList] := by decide

/-- The weighted sum written with ordinary rational arithmetic. -/
theorem finalScoreRaw_eq (s : Signals) :
    finalScoreRaw s =
      s.development_velocity * (25/100) + s.collaboration_index * (20/100) +
      s.code_quality * (20/100) + s.documentation_maturity * (15/100) +
      s.project_structure * (10/100) + s.community_engagement * (10/100) := by
  have w1 : weightOf "development_velocity" = mkRat 25 100 := by decide
  have w2 : weightOf "collaboration_index" = mkRat 20 100 := by decide
  have w3 : weightOf "code_quality" = mkRat 20 100 := by decide
  have w4 : weightOf "documentation_maturity" = mkRat 15 100 := by decide
  have w5 : weightOf "project_structure" = mkRat 10 100 := by decide
  have w6 : weightOf "community_engagement" = mkRat 10 100 := by decide
  rw [finalScoreRaw, w1, w2, w3, w4, w5, w6]
  simp only [qAdd_eq, qMul_eq, mkRat_eq_div_cast]
  push_cast
  ring

/-! ## Claims about the score normalizer (C7) -/

/-- C7 counterexample: the normalizer is `min(1.0, raw / ceiling)` with no
floor clamp, so the negative raw value -1 with ceiling 5 yields -1/5, which is
outside [0,1] and is not clamped to 0.0 as the claim states. -/
theorem normalize_negative_not_clamped_cex :
    normalize (-1) 5 < 0 ∧ normalize (-1) 5 ≠ 0 := by decide

/-- C7 (amended): for raw ≥ 0 and ceiling > 0 the normalizer lands in [0,1],
sends 0 to 0.0 and every raw ≥ ceiling to exactly 1.0, and it never raises;
but a negative raw is returned as the negative value raw/ceiling, not clamped
to the 0.0 floor. -/
theorem normalize_spec_nonneg (r c : ℚ) (hc : 0 < c) :
    (0 ≤ r → 0 ≤ normalize r c ∧ normalize r c ≤ 1) ∧
    (r = 0 → normalize r c = 0) ∧
    (c ≤ r → normalize r c = 1) ∧
    (r < 0 → normalize r c = r / c ∧ normalize r c < 0) := by
  have hq : normalize r c = min 1 (r / c) := by
    rw [normalize, pyMinQ_eq_min, qDiv_eq]
  refine ⟨fun hr => ?_, fun hr => ?_, fun hr => ?_, fun hr => ?_⟩
  · rw [hq]
    exact ⟨le_min zero_le_one (div_nonneg hr hc.le), min_le_left _ _⟩
  · rw [hq, hr, zero_div]
    simp
  · rw [hq, min_eq_left ((one_le_div hc).mpr hr)]
  · have hneg : r / c < 0 := div_neg_of_neg_of_pos hr hc
    rw [hq, min_eq_right (hneg.le.trans zero_le_one)]
    exact ⟨rfl, hneg⟩

/-- C7 witness: the amended normalizer contract evaluated at raw 7 and raw 0
against ceiling 5. -/
theorem normalize_spec_nonneg_witness :
    normalize 7 5 = 1 ∧ normalize 0 5 = 0 :=
  ⟨(normalize_spec_nonneg 7 5 (by norm_num)).2.2.1 (by norm_num),
   (normalize_spec_nonneg 0 5 (by norm_num)).2.1 rfl⟩

/-! ## Claims about the text-score extractor (C5) -/

/-- C5 counterexample: on the spec's test input the extractor does recover the
score 0.75, but it returns zero recommendations, not two: the keyword set is
the Portuguese stems recomend/sugest/melhor/deve, none of which occur in the
English sentence (which is also a single line). -/
theorem text_score_extractor_cex :
    ¬ (extractScore c5Text = mkRat 3 4 ∧ (extract_recommendations c5Text).length = 2) := by
  decide

/-- C5 (amended): on the input Score: 0.75. You should improve test coverage.
Also you should add documentation. the extractor returns score 0.75 and an
empty recommendations list, both directly and through
`analyze_commit_quality`. -/
theorem text_score_extractor_result :
    extractScore c5Text = mkRat 3 4 ∧ extract_recommendations c5Text = [] ∧
    (analyze_commit_quality ["m".toList] true (some c5Text)).score = mkRat 3 4 ∧
    (analyze_commit_quality ["m".toList] true (some c5Text)).recommendations = [] := by
  decide

/-! ## Claims about the recommendation caps (C10) -/

/-- C10: the repository-level extractor returns at most 2 recommendations, and
each per-user detailed analysis returns at most 3, on every path including
every fallback. -/
theorem recommendations_capped :
    (∀ text : List Char, (extract_recommendations text).length ≤ 2) ∧
    (∀ cd en res, (analyze_commits_detailed cd en res).recommendations.length ≤ 3) ∧
    (∀ idt en res, (analyze_issues_detailed idt en res).recommendations.length ≤ 3) ∧
    (∀ rdt en res, (analyze_reviews_detailed rdt en res).recommendations.length ≤ 3) := by
  refine ⟨fun text => ?_, fun cd en res => ?_, fun idt en res => ?_, fun rdt en res => ?_⟩
  · rw [extract_recommendations]
    exact List.length_take_le 2 _
  · rcases res with _ | result <;>
      unfold analyze_commits_detailed <;>
      repeat' split <;>
      (simp [commitDefaultRecs, List.length_take]; try omega)
  · rcases res with _ | result <;>
      unfold analyze_issues_detailed <;>
      repeat' split <;>
      (simp [issueDefaultRecs, List.length_take]; try omega)
  · rcases res with _ | result <;>
      unfold analyze_reviews_detailed <;>
      repeat' split <;>
      (simp [reviewDefaultRecs, List.length_take]; try omega)

/-! ## Claims about the composite scorer (C1, C8) -/

/-- Characterization of the tier ladder in terms of the thresholds. -/
theorem maturityLevel_iff (x : ℚ) :
    (maturityLevel x = "Excelente" ↔ 8/10 ≤ x) ∧
    (maturityLevel x = "Maduro" ↔ 6/10 ≤ x ∧ x < 8/10) ∧
    (maturityLevel x = "Em Desenvolvimento" ↔ 4/10 ≤ x ∧ x < 6/10) ∧
    (maturityLevel x = "Iniciante" ↔ x < 4/10) := by
  have h8 : mkRat 8 10 = (8/10 : ℚ) := by rw [mkRat_eq_div_cast]; norm_num
  have h6 : mkRat 6 10 = (6/10 : ℚ) := by rw [mkRat_eq_div_cast]; norm_num
  have h4 : mkRat 4 10 = (4/10 : ℚ) := by rw [mkRat_eq_div_cast]; norm_num
  rw [maturityLevel, h8, h6, h4]
  split_ifs with h1 h2 h3
  · exact ⟨iff_of_true rfl h1,
      iff_of_false (by decide) (fun hc => absurd h1 (not_le.mpr hc.2)),
      iff_of_false (by decide) (fun hc => absurd h1 (not_le.mpr (hc.2.trans_le (by norm_num)))),
      iff_of_false (by decide) (fun hc => absurd h1 (not_le.mpr (hc.trans_le (by norm_num))))⟩
  · exact ⟨iff_of_false (by decide) h1,
      iff_of_true rfl ⟨h2, not_le.mp h1⟩,
      iff_of_false (by decide) (fun hc => absurd h2 (not_le.mpr hc.2)),
      iff_of_false (by decide) (fun hc => absurd h2 (not_le.mpr (hc.trans_le (by norm_num))))⟩
  · exact ⟨iff_of_false (by decide) h1,
      iff_of_false (by decide) (fun hc => absurd hc.1 h2),
      iff_of_true rfl ⟨h3, not_le.mp h2⟩,
      iff_of_false (by decide) (fun hc => absurd h3 (not_le.mpr hc))⟩
  · exact ⟨iff_of_false (by decide) (fun hc => absurd ((by norm_num : (4/10:ℚ) ≤ 8/10).trans hc) h3),
      iff_of_false (by decide) (fun hc => absurd ((by norm_num : (4/10:ℚ) ≤ 6/10).trans hc.1) h3),
      iff_of_false (by decide) (fun hc => absurd hc.1 h3),
      iff_of_true rfl (not_le.mp h3)⟩

/-- C1 counterexample: with all six signals equal to 0.7996 (each in [0,1]),
the code's tier is "Maduro" because the ladder at lines 307-314 reads the
unrounded weighted sum 0.7996, while the claim's recipe (map the value rounded
to 3 decimals, here 0.800) yields "Excelente". -/
theorem composite_rounds_after_tier_cex :
    SignalsInRange c1Signals ∧
    round3 (finalScoreRaw c1Signals) = mkRat 8 10 ∧
    (analyze_repository_comprehensive c1Signals).maturity_level = "Maduro" ∧
    maturityLevel (round3 (finalScoreRaw c1Signals)) = "Excelente" := by
  have hv : finalScoreRaw c1Signals = mkRat 7996 10000 := by
    rw [finalScoreRaw_eq]
    norm_num [c1Signals, mkRat_eq_div_cast]
  have hround : round3 (finalScoreRaw c1Signals) = mkRat 8 10 := by
    rw [hv, round3, qRound_eq, qMul_eq]
    rw [mkRat_eq_div_cast, mkRat_eq_div_cast, mkRat_eq_div_cast]
    rw [round_eq]
    rw [show ((7996 : ℤ) : ℚ) / ((10000 : ℕ) : ℚ) * (((1000 : ℤ) : ℚ) / ((1 : ℕ) : ℚ)) + 1/2
        = 8001/10 by norm_num]
    rw [show ⌊(8001/10 : ℚ)⌋ = 800 from Int.floor_eq_iff.mpr (by norm_num)]
    norm_num
  refine ⟨by decide, hround, ?_, ?_⟩
  · have := (maturityLevel_iff (finalScoreRaw c1Signals)).2.1
    refine this.mpr ?_
    rw [hv, mkRat_eq_div_cast]
    norm_num
  · rw [hround]
    have := (maturityLevel_iff (mkRat 8 10)).1
    refine this.mpr ?_
    rw [mkRat_eq_div_cast]
    norm_num

/-- Field access of the composite result: the reported score. -/
theorem arc_final_score (s : Signals) :
    (analyze_repository_comprehensive s).final_score = round3 (finalScoreRaw s) := rfl

/-- Field access of the composite result: the tier label. -/
theorem arc_maturity_level (s : Signals) :
    (analyze_repository_comprehensive s).maturity_level = maturityLevel (finalScoreRaw s) := by
  unfold analyze_repository_comprehensive
  dsimp only

/-- C1 (amended): for six signal scores each in [0,1], the composite reports
`final_score` as the weighted sum rounded to 3 decimals, but maps the
unrounded weighted sum to the maturity tier by thresholds evaluated top-down,
with the boundary values 0.8, 0.6, 0.4 inclusive in the higher tier. -/
theorem composite_final_score_and_tier (s : Signals) (_hin : SignalsInRange s) :
    (analyze_repository_comprehensive s).final_score = round3 (finalScoreRaw s) ∧
    ((analyze_repository_comprehensive s).maturity_level = "Excelente" ↔
      8/10 ≤ finalScoreRaw s) ∧
    ((analyze_repository_comprehensive s).maturity_level = "Maduro" ↔
      6/10 ≤ finalScoreRaw s ∧ finalScoreRaw s < 8/10) ∧
    ((analyze_repository_comprehensive s).maturity_level = "Em Desenvolvimento" ↔
      4/10 ≤ finalScoreRaw s ∧ finalScoreRaw s < 6/10) ∧
    ((analyze_repository_comprehensive s).maturity_level = "Iniciante" ↔
      finalScoreRaw s < 4/10) := by
  rw [arc_final_score, arc_maturity_level]
  have hm := maturityLevel_iff (finalScoreRaw s)
  exact ⟨rfl, hm.1, hm.2.1, hm.2.2.1, hm.2.2.2⟩

/-- C1 witness: the amended statement applied to the all-0.5 signal vector,
whose composite 0.5 lands in "Em Desenvolvimento". -/
theorem composite_final_score_and_tier_witness :
    SignalsInRange halfSignals ∧
    (analyze_repository_comprehensive halfSignals).maturity_level = "Em Desenvolvimento" := by
  have hr : SignalsInRange halfSignals := by decide
  refine ⟨hr, ?_⟩
  refine (composite_final_score_and_tier halfSignals hr).2.2.2.1.mpr ?_
  rw [finalScoreRaw_eq]
  norm_num [halfSignals, mkRat_eq_div_cast]

/-- C8: the fixed weight table has non-negative entries summing to 1.0, and
for six signal scores each in [0,1] both the raw weighted sum and the reported
(3-decimal rounded) `final_score` lie in [0,1]. -/
theorem composite_score_in_unit_interval (s : Signals) (h : SignalsInRange s) :
    (AGILE_METRICS_WEIGHTS.map Prod.snd).sum = 1 ∧
    (∀ w ∈ AGILE_METRICS_WEIGHTS, 0 ≤ w.2) ∧
    (0 ≤ finalScoreRaw s ∧ finalScoreRaw s ≤ 1) ∧
    (0 ≤ (analyze_repository_comprehensive s).final_score ∧
      (analyze_repository_comprehensive s).final_score ≤ 1) := by
  obtain ⟨h1, h2, h3, h4, h5, h6, h7, h8, h9, h10, h11, h12⟩ := h
  have hraw : 0 ≤ finalScoreRaw s ∧ finalScoreRaw s ≤ 1 := by
    rw [finalScoreRaw_eq]
    constructor <;> nlinarith
  have hfs := arc_final_score s
  have hr3 : round3 (finalScoreRaw s) =
      ((round (finalScoreRaw s * 1000) : ℤ) : ℚ) / 1000 := by
    rw [round3, mkRat_eq_div_cast, qRound_eq, qMul_eq, mkRat_eq_div_cast]
    norm_num
  have hlo : (0 : ℤ) ≤ round (finalScoreRaw s * 1000) := by
    rw [round_eq]
    exact Int.floor_nonneg.mpr (by nlinarith [hraw.1])
  have hhi : round (finalScoreRaw s * 1000) ≤ 1000 := by
    rw [round_eq]
    calc ⌊finalScoreRaw s * 1000 + 1/2⌋ ≤ ⌊(1000 + 1/2 : ℚ)⌋ :=
          Int.floor_le_floor (by nlinarith [hraw.2])
      _ = 1000 := by norm_num
  have hsum : (AGILE_METRICS_WEIGHTS.map Prod.snd).sum = 1 := by
    simp [AGILE_METRICS_WEIGHTS, mkRat_eq_div_cast]
    norm_num
  have hnn : ∀ w ∈ AGILE_METRICS_WEIGHTS, 0 ≤ w.2 := by
    intro w hw
    simp [AGILE_METRICS_WEIGHTS] at hw
    rcases hw with rfl | rfl | rfl | rfl | rfl | rfl <;> decide
  refine ⟨hsum, hnn, hraw, ?_⟩
  rw [hfs, hr3]
  constructor
  · exact div_nonneg (by exact_mod_cast hlo) (by norm_num)
  · rw [div_le_one (by norm_num)]
    exact_mod_cast hhi

/-- C8 witness: the bound applied to the all-0.5 signal vector. -/
theorem composite_score_in_unit_interval_witness :
    SignalsInRange halfSignals ∧
    (0 ≤ finalScoreRaw halfSignals ∧ finalScoreRaw halfSignals ≤ 1) := by
  have hr : SignalsInRange halfSignals := by decide
  exact ⟨hr, (composite_score_in_unit_interval halfSignals hr).2.2.1⟩

/-! ## Claims about the commit-frequency heuristic (C2, C3, C4, C6, C9) -/

/-- C2 (code bug): on an empty commit list over a 10-week window (70 days =
6048000 seconds), `analyze_commit_frequency` takes the early return at
lines 400-406: the alert level is "critical" as the claim says, but
`weeks_inactive` is 0 instead of `weeks_total = 10`, and the `weeks_total` key
is absent altogether; the `commits_total == 0` branch that would realize the
claim is unreachable. -/
theorem empty_commits_frequency_result :
    (analyze_commit_frequency [] 0 6048000).weeks_inactive = 0 ∧
    (analyze_commit_frequency [] 0 6048000).weeks_total = none ∧
    (analyze_commit_frequency [] 0 6048000).alert_level = "critical" ∧
    (analyze_commit_frequency [] 0 6048000).commits_per_week = 0 ∧
    weeksInPeriod 0 6048000 = 10 := by decide

/-- C3: for every user whose collected commit list is empty,
`generate_detailed_report` hits the missing `weeks_total` key of the frequency
result (f-string line 489, again lines 601-603) and raises `KeyError`, for any
window whatsoever; no report is produced. -/
theorem report_empty_commits_keyerror (s n : ℤ) :
    generate_detailed_report [] s n = Except.error "KeyError: weeks_total" := rfl

/-- C4 counterexample: two calls of `analyze_commit_frequency` with identical
`commits_data` (one commit) and identical `since_date` (epoch 0) but evaluated
at different wall-clock times (70 days vs 140 days later) give different
results, because the function reads `datetime.now()`. -/
theorem frequency_clock_dependence_cex :
    analyze_commit_frequency [c0] 0 6048000 ≠ analyze_commit_frequency [c0] 0 12096000 := by
  decide

/-- C4 (amended): the heuristic is deterministic and exactly reproducible from
`commits_data`, `since_date` and the observation time `now` together (the
wall clock is a genuine input; there is no other hidden state). -/
theorem frequency_deterministic_in_all_inputs (cs₁ cs₂ : List Commit) (s₁ s₂ n₁ n₂ : ℤ)
    (hc : cs₁ = cs₂) (hs : s₁ = s₂) (hn : n₁ = n₂) :
    analyze_commit_frequency cs₁ s₁ n₁ = analyze_commit_frequency cs₂ s₂ n₂ := by
  rw [hc, hs, hn]

/-- C4 witness: determinism applied at one commit over a 10-week window. -/
theorem frequency_deterministic_witness :
    analyze_commit_frequency [c0] 0 6048000 = analyze_commit_frequency [c0] 0 6048000 :=
  frequency_deterministic_in_all_inputs [c0] [c0] 0 0 6048000 6048000 rfl rfl rfl

/-- The severity ladder re-expressed with the "good" test first, the order the
claim C6 states; equivalent to the source's `commits_per_week < 1.0` nesting. -/
theorem alertLevelOf_eq (cpw : ℚ) (wi wt : ℤ) :
    alertLevelOf cpw wi wt =
      (if 1 ≤ cpw then "good"
       else if (7/10 : ℚ) * (wt : ℚ) ≤ (wi : ℚ) then "high"
       else if (4/10 : ℚ) * (wt : ℚ) ≤ (wi : ℚ) then "medium"
       else if cpw < 1/2 then "low"
       else "normal") := by
  have h7 : qMul (wt : ℚ) (mkRat 7 10) = (7/10 : ℚ) * (wt : ℚ) := by
    rw [qMul_eq, mkRat_eq_div_cast]
    push_cast
    ring
  have h4 : qMul (wt : ℚ) (mkRat 4 10) = (4/10 : ℚ) * (wt : ℚ) := by
    rw [qMul_eq, mkRat_eq_div_cast]
    push_cast
    ring
  have h12 : (mkRat 1 2 : ℚ) = 1/2 := by
    rw [mkRat_eq_div_cast]
    norm_num
  rw [alertLevelOf]
  simp only [h7, h4, h12, ge_iff_le]
  rcases lt_or_le cpw 1 with hlt | hge
  · rw [if_pos hlt, if_neg (not_le.mpr hlt)]
  · rw [if_neg (not_lt.mpr hge), if_pos hge]

/-- C6: for every non-empty commit list, `weeks_inactive` is
`max(0, weeks_total - commit_count)` and the alert level follows the ladder
good / high / medium / low / normal with the claimed thresholds, evaluated
top-down. -/
theorem nonempty_frequency_levels (cs : List Commit) (s n : ℤ) (h : cs ≠ []) :
    (analyze_commit_frequency cs s n).weeks_inactive
        = max 0 (weeksInPeriod s n - (cs.length : ℤ)) ∧
    (analyze_commit_frequency cs s n).alert_level =
      (if 1 ≤ ((cs.length : ℤ) : ℚ) / ((weeksInPeriod s n : ℤ) : ℚ) then "good"
       else if (7/10 : ℚ) * ((weeksInPeriod s n : ℤ) : ℚ)
           ≤ ((max 0 (weeksInPeriod s n - (cs.length : ℤ)) : ℤ) : ℚ) then "high"
       else if (4/10 : ℚ) * ((weeksInPeriod s n : ℤ) : ℚ)
           ≤ ((max 0 (weeksInPeriod s n - (cs.length : ℤ)) : ℤ) : ℚ) then "medium"
       else if ((cs.length : ℤ) : ℚ) / ((weeksInPeriod s n : ℤ) : ℚ) < 1/2 then "low"
       else "normal") := by
  have hne : ((cs.length : ℕ) : ℤ) ≠ 0 := fun hh =>
    h (List.length_eq_zero.mp (Int.natCast_eq_zero.mp hh))
  unfold analyze_commit_frequency
  rw [if_neg h, if_neg hne]
  dsimp only
  constructor
  · rw [pyMaxI_eq_max]
  · rw [alertLevelOf_eq]
    simp only [Rat.divInt_eq_div, pyMaxI_eq_max]

/-- C6 witness: 12 commits over a 10-week window give level "good" with 0
inactive weeks, and 2 commits over the same window give level "high". -/
theorem nonempty_frequency_levels_witness :
    (analyze_commit_frequency (List.replicate 12 c0) 0 6048000).alert_level = "good" ∧
    (analyze_commit_frequency (List.replicate 12 c0) 0 6048000).weeks_inactive = 0 ∧
    (analyze_commit_frequency (List.replicate 2 c0) 0 6048000).alert_level = "high" := by
  have h12 := nonempty_frequency_levels (List.replicate 12 c0) 0 6048000 (by simp)
  have h2 := nonempty_frequency_levels (List.replicate 2 c0) 0 6048000 (by simp)
  have hwk : weeksInPeriod 0 6048000 = 10 := by decide
  have hm12 : max 0 ((10 : ℤ) - 12) = 0 := by omega
  have hm2 : max 0 ((10 : ℤ) - 2) = 8 := by omega
  simp only [hwk, List.length_replicate, Nat.cast_ofNat, hm12, hm2] at h12 h2
  norm_num at h12 h2
  exact ⟨h12.2, h12.1, h2.2⟩

/-- C9: `weeks_total` is `max(1, days_between // 7)`, an integer at least 1,
carried into the frequency result for every non-empty commit list; inverted
window dates clamp it to 1 and nothing raises. -/
theorem weeks_total_floor_clamp (cs : List Commit) (s n : ℤ) (h : cs ≠ []) :
    (analyze_commit_frequency cs s n).weeks_total = some (weeksInPeriod s n) ∧
    1 ≤ weeksInPeriod s n ∧
    (n < s → weeksInPeriod s n = 1) := by
  have hne : ((cs.length : ℕ) : ℤ) ≠ 0 := fun hh =>
    h (List.length_eq_zero.mp (Int.natCast_eq_zero.mp hh))
  refine ⟨?_, ?_, ?_⟩
  · unfold analyze_commit_frequency
    rw [if_neg h, if_neg hne]
  · rw [weeksInPeriod, pyMaxI_eq_max]
    exact le_max_left 1 _
  · intro hns
    rw [weeksInPeriod, pyMaxI_eq_max, daysBetween]
    exact max_eq_left (by omega)

/-- C9 witness: an inverted window (end 100 seconds before start) clamps
`weeks_total` to 1. -/
theorem weeks_total_floor_clamp_witness :
    (analyze_commit_frequency [c0] 100 0).weeks_total = some (weeksInPeriod 100 0) ∧
    1 ≤ weeksInPeriod 100 0 ∧ weeksInPeriod 100 0 = 1 := by
  have h := weeks_total_floor_clamp [c0] 100 0 (by simp)
  exact ⟨h.1, h.2.1, h.2.2 (by norm_num)⟩

end Avalia
